import Mathlib

/-!
Verification of the retrieval-and-grounding engine specification for the
Physical-AI textbook platform, together with the chat page client
(`src/textbook/src/pages/chat.js`).

The frontend chat page is translated directly from `chat.js`.  The backend
engine (Chunker, Embedder, VectorIndex, Retriever, GroundedAnswerBuilder,
IngestionPipeline) is not present in the repository snapshot; those
definitions are modelled from the specification, as marked in their doc
comments.  Machine reals (embedding vectors, similarities) are modelled as
rationals; fallible capability calls are modelled as `Option`/`Except`
values, with explicit call counters where a property speaks about the
number of capability invocations.
-/

/-- Modelled from the spec: a Chunk is a bounded, addressable slice of
source text (§3), with a stable id, owning book, text, source offsets and
a sequence index. -/
structure Chunk where
  chunk_id : String
  book_id : String
  text : String
  start_offset : Nat
  end_offset : Nat
  sequence_index : Nat
deriving DecidableEq, Repr

/-- Modelled from the spec: an EmbeddedChunk is a Chunk plus its embedding
vector (§3); vectors are modelled as lists of rationals. -/
structure EmbeddedChunk where
  chunk : Chunk
  vector : List Rat
deriving DecidableEq, Repr

/-- Modelled from the spec: the two operating modes of a query (§3). -/
inductive Mode where
  | full_book
  | selected_text_only
deriving DecidableEq, Repr

/-- Modelled from the spec: a Query (§3). `selected_text` is optional at
the type level; the mode/selected_text consistency invariant is checked by
request validation, not by the engine. -/
structure Query where
  session_id : String
  text : String
  mode : Mode
  book_id : String
  selected_text : Option String
deriving DecidableEq, Repr

/-- Modelled from the spec: the source of one evidence entry — either a
retrieved chunk or the user-provided text selection (§3). -/
inductive EvidenceSource where
  | chunkSrc (c : Chunk)
  | selection (s : String)
deriving DecidableEq, Repr

/-- Modelled from the spec: one evidence entry, an evidence source paired
with its relevance score (§3). -/
structure EvidenceEntry where
  source : EvidenceSource
  relevance_score : Rat
deriving DecidableEq, Repr

/-- Modelled from the spec: Evidence is an ordered sequence of entries (§3). -/
abbrev Evidence := List EvidenceEntry

/-- Modelled from the spec: a Citation links a claim to evidence — a chunk
id or the marker "selection", the quoted span, and the book (§3). -/
structure Citation where
  ref : String
  quoted_span : String
  book_id : String
deriving DecidableEq, Repr

/-- Modelled from the spec: an Answer (§3). -/
structure Answer where
  text : String
  citations : List Citation
  grounded : Bool
  mode : Mode
deriving DecidableEq, Repr

/-- Modelled from the spec: engine failure taxonomy (§7). -/
inductive EngineError where
  | embeddingUnavailable
  | indexUnavailable
  | generationUnavailable
deriving DecidableEq, Repr

/-- Modelled from the spec: retrieval configuration — `top_k` candidates,
minimum-similarity threshold `tau`, and the total evidence character
budget (§4.4). -/
structure Config where
  top_k : Nat
  tau : Rat
  max_evidence_chars : Nat
deriving DecidableEq, Repr

/-- A string is blank when every character is whitespace — exactly the
strings whose trimmed form is empty (the Chunker edge case of §4.1 and the
JavaScript guard `!inputValue.trim()` of chat.js line 15 both test this). -/
def isBlank (s : String) : Bool := s.data.all Char.isWhitespace

/-- Modelled from the spec: `chunk_id` is a deterministic function of
`(book_id, start_offset, end_offset)` (§4.1). -/
def chunkId (book_id : String) (s e : Nat) : String :=
  book_id ++ "#" ++ toString s ++ ":" ++ toString e

/-- Modelled from the spec: the Chunker (§4.1).  The backend
implementation is absent from the snapshot; splitting is modelled as
bounded-size cuts with a verbatim overlap region (the
boundary-preference heuristic is abstracted away — no claim depends on
it).  Empty or whitespace-only input yields an empty sequence, and each
`chunk_id` is computed by `chunkId` from `(book_id, start_offset,
end_offset)`. -/
def chunk (book_id : String) (raw : String) (maxChunkChars overlapChars : Nat) :
    List Chunk :=
  if isBlank raw then []
  else
    let cs := raw.data
    let len := cs.length
    let step := max 1 (maxChunkChars - overlapChars)
    (List.range ((len + step - 1) / step)).map fun i =>
      let s := i * step
      let e := min (s + maxChunkChars) len
      { chunk_id := chunkId book_id s e
        book_id := book_id
        text := String.mk ((cs.drop s).take (e - s))
        start_offset := s
        end_offset := e
        sequence_index := i }

/-- Modelled from the spec: the VectorIndex state — stored embedded
chunks with their metadata (§4.3). -/
structure IndexState where
  entries : List EmbeddedChunk
deriving DecidableEq, Repr

/-- Modelled from the spec: dot-product similarity between a query vector
and a stored vector (§4.3 allows cosine or dot similarity; dot keeps the
model in the rationals). -/
def dotSim (v w : List Rat) : Rat :=
  (List.zipWith (· * ·) v w).sum

/-- Modelled from the spec: the search result order — descending by
similarity, ties broken by ascending `sequence_index` (§4.3). -/
def searchLe (p q : Chunk × Rat) : Prop :=
  q.2 < p.2 ∨ (p.2 = q.2 ∧ p.1.sequence_index ≤ q.1.sequence_index)

instance : DecidableRel searchLe := fun p q => by
  unfold searchLe; infer_instance

instance : IsTotal (Chunk × Rat) searchLe := by
  constructor
  intro a b
  rcases lt_trichotomy a.2 b.2 with h | h | h
  · exact Or.inr (Or.inl h)
  · rcases Nat.le_total a.1.sequence_index b.1.sequence_index with hs | hs
    · exact Or.inl (Or.inr ⟨h, hs⟩)
    · exact Or.inr (Or.inr ⟨h.symm, hs⟩)
  · exact Or.inl (Or.inl h)

instance : IsTrans (Chunk × Rat) searchLe := by
  constructor
  intro a b c hab hbc
  rcases hab with hab | ⟨hab, hab'⟩ <;> rcases hbc with hbc | ⟨hbc, hbc'⟩
  · exact Or.inl (lt_trans hbc hab)
  · exact Or.inl (hbc ▸ hab)
  · exact Or.inl (hab ▸ hbc)
  · exact Or.inr ⟨hab.trans hbc, le_trans hab' hbc'⟩

/-- Modelled from the spec: `VectorIndex.search` (§4.3).  Restricts to
the requested book, scores every stored chunk against the query vector,
sorts descending by similarity with ties broken by ascending
`sequence_index`, and returns the first `top_k` pairs. -/
def search (st : IndexState) (book_id : String) (qv : List Rat) (top_k : Nat) :
    List (Chunk × Rat) :=
  let cands :=
    (st.entries.filter fun ec => ec.chunk.book_id == book_id).map
      fun ec => (ec.chunk, dotSim qv ec.vector)
  (List.insertionSort searchLe cands).take top_k

/-- Modelled from the spec: the text carried by one evidence entry. -/
def entryText (e : EvidenceEntry) : String :=
  match e.source with
  | .chunkSrc c => c.text
  | .selection s => s

/-- Modelled from the spec: truncation of the (already
descending-sorted) evidence list to the `max_evidence_chars` budget,
dropping lowest-scoring entries first (§4.4). -/
def takeBudget (budget : Nat) : Evidence → Evidence
  | [] => []
  | e :: es =>
    let n := (entryText e).length
    if n ≤ budget then e :: takeBudget (budget - n) es else []

/-- Modelled from the spec: `Retriever.retrieve` (§4.4).  In
`selected_text_only` mode the evidence is exactly one entry wrapping the
selection with score 1 and no search occurs; in `full_book` mode the
query is embedded (failure surfaces as `embeddingUnavailable`), the index
is searched, entries below the threshold are dropped and the budget is
applied.  The second component counts `VectorIndex.search` calls. -/
def retrieve (embed : String → Option (List Rat)) (st : IndexState)
    (cfg : Config) (q : Query) : Except EngineError (Evidence × Nat) :=
  match q.mode with
  | .selected_text_only =>
      .ok ([⟨.selection (q.selected_text.getD ""), 1⟩], 0)
  | .full_book =>
      match embed q.text with
      | none => .error .embeddingUnavailable
      | some v =>
          let hits := search st q.book_id v cfg.top_k
          let kept := hits.filter fun p => cfg.tau ≤ p.2
          .ok (takeBudget cfg.max_evidence_chars
                 (kept.map fun p => ⟨.chunkSrc p.1, p.2⟩), 1)

/-- Modelled from the spec: the fixed refusal message returned when no
grounding exists (§3, §4.5). -/
def refusalText : String :=
  "No supporting content was found in the book for this question."

/-- Modelled from the spec: the refusal Answer — fixed refusal text,
empty citations, `grounded = false` (§4.5). -/
def refusalAnswer (m : Mode) : Answer :=
  { text := refusalText, citations := [], grounded := false, mode := m }

/-- Modelled from the spec: raw generation output — the answer text and
the indices of the evidence reference markers it cites (§4.5). -/
structure GenOutput where
  text : String
  refs : List Nat
deriving DecidableEq, Repr

/-- Modelled from the spec: the grounded prompt, presenting each evidence
item with a reference marker (§4.5). -/
def buildPrompt (q : Query) (ev : Evidence) : String :=
  "Answer only from the provided references.\n" ++ q.text ++
    String.join (ev.enum.map fun p =>
      "\n[" ++ toString p.1 ++ "] " ++ entryText p.2)

/-- Modelled from the spec: the citation produced from one evidence
entry — a chunk id for a retrieved chunk, the marker "selection" for a
user selection (§3, §4.5). -/
def citationOf (q : Query) (e : EvidenceEntry) : Citation :=
  match e.source with
  | .chunkSrc c => { ref := c.chunk_id, quoted_span := c.text, book_id := c.book_id }
  | .selection s => { ref := "selection", quoted_span := s, book_id := q.book_id }

/-- Modelled from the spec: `GroundedAnswerBuilder.answer` (§4.5).  Empty
evidence returns the refusal immediately, before any generation call;
otherwise the generation capability is invoked once (failure surfaces as
`generationUnavailable`), reference markers are extracted into citations,
and output without any extractable marker falls back to the refusal.  The
second component counts generation-capability calls. -/
def answer (gen : String → Option GenOutput) (q : Query) (ev : Evidence) :
    Except EngineError (Answer × Nat) :=
  if ev.isEmpty then .ok (refusalAnswer q.mode, 0)
  else
    match gen (buildPrompt q ev) with
    | none => .error .generationUnavailable
    | some out =>
        let cits := (out.refs.filterMap fun i => ev.get? i).map (citationOf q)
        if cits.isEmpty then .ok (refusalAnswer q.mode, 1)
        else .ok ({ text := out.text, citations := cits,
                    grounded := true, mode := q.mode }, 1)

/-- Modelled from the spec: the query path — Retriever then
GroundedAnswerBuilder (§2, §6).  Returns the answer with the search-call
count and the generation-call count. -/
def runQuery (embed : String → Option (List Rat))
    (gen : String → Option GenOutput) (st : IndexState) (cfg : Config)
    (q : Query) : Except EngineError (Answer × Nat × Nat) :=
  match retrieve embed st cfg q with
  | .error e => .error e
  | .ok (ev, sc) =>
      match answer gen q ev with
      | .error e => .error e
      | .ok (a, gc) => .ok (a, sc, gc)

/-- Modelled from the spec: embedding a whole batch of chunks; the batch
fails as a whole if any element fails (§4.2, §4.6). -/
def embedAll (embed : String → Option (List Rat)) :
    List Chunk → Option (List EmbeddedChunk)
  | [] => some []
  | c :: cs =>
      match embed c.text, embedAll embed cs with
      | some v, some rest => some (⟨c, v⟩ :: rest)
      | _, _ => none

/-- Modelled from the spec: `VectorIndex.delete(book_id)` — removes all
chunks for that book, leaving other books untouched (§4.3). -/
def deleteBook (st : IndexState) (b : String) : IndexState :=
  ⟨st.entries.filter fun ec => ec.chunk.book_id != b⟩

/-- Modelled from the spec: `VectorIndex.upsert` — a chunk with the same
id replaces the stored vector/text (§4.3). -/
def upsert (st : IndexState) (ecs : List EmbeddedChunk) : IndexState :=
  ⟨(st.entries.filter fun ec =>
      ecs.all fun n => n.chunk.chunk_id != ec.chunk.chunk_id) ++ ecs⟩

/-- Modelled from the spec: `IngestionPipeline.ingest` (§4.6) — Chunker,
then the embedding batch, then delete-then-upsert, upserting only after
the full batch of embeddings succeeds. -/
def ingest (embed : String → Option (List Rat)) (st : IndexState)
    (b _title _author content : String) (maxChunkChars overlapChars : Nat) :
    Except EngineError (IndexState × Nat) :=
  let cs := chunk b content maxChunkChars overlapChars
  match embedAll embed cs with
  | none => .error .embeddingUnavailable
  | some ecs => .ok (upsert (deleteBook st b) ecs, cs.length)

/-- Modelled from the spec: the index state visible after an ingestion
call — on failure nothing was upserted, so the prior state stands (§4.6). -/
def ingestState (embed : String → Option (List Rat)) (st : IndexState)
    (b title author content : String) (maxChunkChars overlapChars : Nat) :
    IndexState :=
  match ingest embed st b title author content maxChunkChars overlapChars with
  | .ok (st', _) => st'
  | .error _ => st

/-- The chunk ids currently searchable for one book. -/
def bookChunkIds (st : IndexState) (b : String) : List String :=
  (st.entries.filter fun ec => ec.chunk.book_id == b).map
    fun ec => ec.chunk.chunk_id

/-! ### Frontend chat page, translated from `src/textbook/src/pages/chat.js` -/

/-- One chat message of the page state (`{id, text, sender}`). -/
structure ChatMessage where
  id : Nat
  text : String
  sender : String
deriving DecidableEq, Repr

/-- The component state of `ChatPage`: the `messages`, `inputValue` and
`isLoading` React state hooks. -/
structure ChatState where
  messages : List ChatMessage
  inputValue : String
  isLoading : Bool
deriving DecidableEq, Repr

/-- The JSON body `handleSendMessage` posts to `/api/v1/chat`
(chat.js lines 30-35): fixed session id, the typed query, mode
`full_book`, fixed book id, and no `selected_text` field. -/
structure ChatRequest where
  session_id : String
  query : String
  mode : String
  book_id : String
  selected_text : Option String
deriving DecidableEq, Repr

/-- The request body constructed by `handleSendMessage` from the current
input value (chat.js lines 30-35). -/
def requestOf (input : String) : ChatRequest :=
  { session_id := "frontend-session"
    query := input
    mode := "full_book"
    book_id := "textbook-content"
    selected_text := none }

/-- The parsed JSON of a successful chat response: `answer` (absent or
empty modelled as `none` / `some ""`), `citations` and `grounded`. -/
structure ChatResponse where
  answer : Option String
  citations : List Citation
  grounded : Bool
deriving DecidableEq, Repr

/-- The outcome of the `fetch` call as seen by `handleSendMessage`: a
parsed OK response, a non-ok HTTP status (which the code turns into a
thrown error), or a network failure. -/
inductive FetchResult where
  | ok (data : ChatResponse)
  | httpError (status : Nat) (statusText : String)
  | networkError
deriving DecidableEq, Repr

/-- The fallback text used when `data.answer` is falsy (chat.js line 46). -/
def fallbackText : String := "Sorry, I couldn\x27t generate a response."

/-- The error message appended when the fetch throws or the response is
non-ok (chat.js lines 52-56). -/
def clientErrorText : String :=
  "Sorry, I encountered an error processing your request. The backend might not be running or properly configured."

/-- The text displayed for a successful response:
`data.answer || "Sorry, I couldn't generate a response."`
(chat.js line 46) — in JavaScript a missing or empty `answer` is falsy. -/
def aiText (data : ChatResponse) : String :=
  match data.answer with
  | some a => if a = "" then fallbackText else a
  | none => fallbackText

/-- `handleSendMessage`, translated from chat.js lines 14-61.  The two
`Date.now()` calls are modelled by `now` and `now + 1`; the fetch outcome
is an explicit parameter.  Returns the new component state and the number
of network requests issued. -/
def handleSendMessage (st : ChatState) (fetchResult : FetchResult)
    (now : Nat) : ChatState × Nat :=
  if isBlank st.inputValue then (st, 0)
  else
    let userMessage : ChatMessage := ⟨now, st.inputValue, "user"⟩
    let msgs := st.messages ++ [userMessage]
    match fetchResult with
    | .ok data =>
        ({ messages := msgs ++ [⟨now + 1, aiText data, "ai"⟩]
           inputValue := ""
           isLoading := false }, 1)
    | .httpError _ _ =>
        ({ messages := msgs ++ [⟨now + 1, clientErrorText, "ai"⟩]
           inputValue := ""
           isLoading := false }, 1)
    | .networkError =>
        ({ messages := msgs ++ [⟨now + 1, clientErrorText, "ai"⟩]
           inputValue := ""
           isLoading := false }, 1)

/-! ### API layer, modelled from the spec (§6, §7) -/

/-- Modelled from the spec: API-level failure taxonomy — a validation
rejection or a propagated engine capability failure (§7). -/
inductive ApiError where
  | validation
  | engine (e : EngineError)
deriving DecidableEq, Repr

/-- Modelled from the spec: request validation (§3, §6) — `selected_text`
must be present iff the mode is `selected_text_only`, the mode must be one
of the two recognized modes, and `book_id` must be present. -/
def validateRequest (r : ChatRequest) : Bool :=
  (r.book_id != "") &&
    (match r.mode, r.selected_text with
     | "full_book", none => true
     | "selected_text_only", some _ => true
     | _, _ => false)

/-- Modelled from the spec: the `POST chat` entry point (§6) — validation
errors are rejected before the engine runs.  The second component counts
engine invocations. -/
def apiChat (engine : ChatRequest → Except EngineError Answer)
    (r : ChatRequest) : Except ApiError Answer × Nat :=
  if validateRequest r then
    match engine r with
    | .ok a => (.ok a, 1)
    | .error e => (.error (.engine e), 1)
  else (.error .validation, 0)

/-! ### Helper lemmas -/

/-- Budget truncation only removes entries; survivors were in the input. -/
theorem mem_takeBudget {e : EvidenceEntry} :
    ∀ {budget : Nat} {l : Evidence}, e ∈ takeBudget budget l → e ∈ l := by
  intro budget l
  induction l generalizing budget with
  | nil => simp [takeBudget]
  | cons a as ih =>
      intro h
      simp only [takeBudget] at h
      split at h
      · rcases List.mem_cons.mp h with h | h
        · exact h ▸ List.mem_cons_self a as
        · exact List.mem_cons_of_mem a (ih h)
      · cases h

/-- A successful batch embedding covers exactly the input chunks, in
order. -/
theorem embedAll_chunks {embed : String → Option (List Rat)} :
    ∀ {cs : List Chunk} {ecs : List EmbeddedChunk},
      embedAll embed cs = some ecs → ecs.map (fun e => e.chunk) = cs := by
  intro cs
  induction cs with
  | nil => intro ecs h; simp [embedAll] at h; simp [← h]
  | cons c cs ih =>
      intro ecs h
      simp only [embedAll] at h
      cases hc : embed c.text with
      | none => rw [hc] at h; simp at h
      | some v =>
          rw [hc] at h
          cases hr : embedAll embed cs with
          | none => rw [hr] at h; simp at h
          | some rest =>
              rw [hr] at h
              simp only [Option.some.injEq] at h
              subst h
              simp [ih hr]

/-- If any chunk of the batch fails to embed, the whole batch fails. -/
theorem embedAll_none {embed : String → Option (List Rat)} {c : Chunk} :
    ∀ {cs : List Chunk}, c ∈ cs → embed c.text = none →
      embedAll embed cs = none := by
  intro cs
  induction cs with
  | nil => intro h; cases h
  | cons a as ih =>
      intro hmem hnone
      rcases List.mem_cons.mp hmem with h | h
      · subst h; simp [embedAll, hnone]
      · simp only [embedAll]
        rw [ih h hnone]
        cases embed a.text <;> rfl

/-- Every pair returned by `search` comes from a stored entry of the
requested book. -/
theorem mem_search {st : IndexState} {b : String} {qv : List Rat}
    {k : Nat} {p : Chunk × Rat} (h : p ∈ search st b qv k) :
    ∃ ec ∈ st.entries, ec.chunk = p.1 ∧ ec.chunk.book_id = b := by
  unfold search at h
  have h1 : p ∈ List.insertionSort searchLe
      ((st.entries.filter fun ec => ec.chunk.book_id == b).map
        fun ec => (ec.chunk, dotSim qv ec.vector)) :=
    (List.take_sublist _ _).mem h
  have h2 := (List.perm_insertionSort searchLe _).mem_iff.mp h1
  rcases List.mem_map.mp h2 with ⟨ec, hec, hp⟩
  rcases List.mem_filter.mp hec with ⟨hentries, hbook⟩
  refine ⟨ec, hentries, ?_, by simpa using hbook⟩
  rw [← hp]

/-- Every chunk the Chunker produces carries the requested book id and a
`chunk_id` computed from `(book_id, start_offset, end_offset)`. -/
theorem chunk_fields {b raw : String} {m o : Nat} {c : Chunk}
    (h : c ∈ chunk b raw m o) :
    c.book_id = b ∧ c.chunk_id = chunkId b c.start_offset c.end_offset := by
  unfold chunk at h
  split at h
  · cases h
  · rcases List.mem_map.mp h with ⟨i, _, hc⟩
    subst hc
    exact ⟨rfl, rfl⟩

/-- After delete-then-upsert of a batch that all belongs to book `b`, the
searchable chunk ids for `b` are exactly those of the batch. -/
theorem bookChunkIds_upsert {st : IndexState} {b : String}
    {ecs : List EmbeddedChunk} (h : ∀ e ∈ ecs, e.chunk.book_id = b) :
    bookChunkIds (upsert (deleteBook st b) ecs) b =
      ecs.map fun e => e.chunk.chunk_id := by
  unfold bookChunkIds upsert deleteBook
  simp only [List.filter_append]
  have hleft :
      ((st.entries.filter fun ec => ec.chunk.book_id != b).filter
          fun ec => ecs.all fun n => n.chunk.chunk_id != ec.chunk.chunk_id).filter
        (fun ec => ec.chunk.book_id == b) = [] := by
    rw [List.filter_eq_nil_iff]
    intro a ha
    rcases List.mem_filter.mp ha with ⟨ha1, _⟩
    rcases List.mem_filter.mp ha1 with ⟨_, hne⟩
    simp only [bne_iff_ne, ne_eq] at hne
    simp [hne]
  have hright : ecs.filter (fun ec => ec.chunk.book_id == b) = ecs := by
    rw [List.filter_eq_self]
    intro e he
    simp [h e he]
  rw [hleft, hright]
  simp

/-! ### Claims -/

/-- C1: for every query whose evidence is empty — in particular every
`full_book` query for which `search` returns no entry with similarity
at or above the threshold — the engine returns the fixed refusal
`Answer{grounded := false, citations := []}` and the generation
capability is never invoked (generation-call count 0). -/
theorem answer_empty_evidence_refusal
    (gen : String → Option GenOutput) (embed : String → Option (List Rat))
    (st : IndexState) (cfg : Config) (q : Query) (v : List Rat)
    (hmode : q.mode = Mode.full_book)
    (hembed : embed q.text = some v)
    (hbelow : ∀ p ∈ search st q.book_id v cfg.top_k, p.2 < cfg.tau) :
    runQuery embed gen st cfg q = .ok (refusalAnswer q.mode, 1, 0) ∧
      ∀ (gen' : String → Option GenOutput) (q' : Query),
        answer gen' q' [] = .ok (refusalAnswer q'.mode, 0) := by
  constructor
  · have hkept : (search st q.book_id v cfg.top_k).filter
        (fun p => cfg.tau ≤ p.2) = [] := by
      rw [List.filter_eq_nil_iff]
      intro p hp
      simpa using not_le.mpr (hbelow p hp)
    unfold runQuery retrieve
    rw [hmode, hembed]
    simp [hkept, answer, takeBudget, hmode]
  · intro gen' q'
    simp [answer]

/-- C1 witness: a `full_book` query against an empty index. -/
theorem answer_empty_evidence_refusal_w :
    runQuery (fun _ => some []) (fun _ => some ⟨"a", [0]⟩) ⟨[]⟩ ⟨5, 1, 100⟩
        ⟨"s", "q", Mode.full_book, "b", none⟩
      = .ok (refusalAnswer Mode.full_book, 1, 0) ∧
      ∀ (gen' : String → Option GenOutput) (q' : Query),
        answer gen' q' [] = .ok (refusalAnswer q'.mode, 0) :=
  answer_empty_evidence_refusal _ _ _ _ _ [] rfl rfl (by simp [search])

/-- C2: in `selected_text_only` mode the evidence is exactly one entry
wrapping the selection verbatim with score 1, and the search-capability
call count is 0. -/
theorem retrieve_selected_text_only
    (embed : String → Option (List Rat)) (st : IndexState) (cfg : Config)
    (q : Query) (s : String)
    (hmode : q.mode = Mode.selected_text_only)
    (hsel : q.selected_text = some s) :
    retrieve embed st cfg q = .ok ([⟨EvidenceSource.selection s, 1⟩], 0) := by
  unfold retrieve
  rw [hmode, hsel]
  rfl

/-- C2 witness: a concrete `selected_text_only` query. -/
theorem retrieve_selected_text_only_w :
    retrieve (fun _ => some []) ⟨[]⟩ ⟨5, 1, 100⟩
        ⟨"s", "q", Mode.selected_text_only, "b", some "X equals 5"⟩
      = .ok ([⟨EvidenceSource.selection "X equals 5", 1⟩], 0) :=
  retrieve_selected_text_only _ _ _ _ _ rfl rfl

/-- C3: ingestion is idempotent — re-ingesting identical
`(book_id, content)` leaves the searchable chunk-id list for that book
unchanged, and every chunk id is the deterministic function `chunkId` of
`(book_id, start_offset, end_offset)`. -/
theorem ingest_idempotent_chunk_ids
    (embed : String → Option (List Rat)) (st : IndexState)
    (b title author content : String) (m o : Nat) (ecs : List EmbeddedChunk)
    (hsucc : embedAll embed (chunk b content m o) = some ecs) :
    bookChunkIds
        (ingestState embed (ingestState embed st b title author content m o)
          b title author content m o) b
      = bookChunkIds (ingestState embed st b title author content m o) b ∧
    bookChunkIds (ingestState embed st b title author content m o) b
      = (chunk b content m o).map fun c => chunkId b c.start_offset c.end_offset := by
  have hbook : ∀ e ∈ ecs, e.chunk.book_id = b := by
    intro e he
    have hc : e.chunk ∈ chunk b content m o := by
      rw [← embedAll_chunks hsucc]
      exact List.mem_map_of_mem _ he
    exact (chunk_fields hc).1
  have hsteq : ∀ st', ingestState embed st' b title author content m o
      = upsert (deleteBook st' b) ecs := by
    intro st'
    simp [ingestState, ingest, hsucc]
  have hids : ∀ st', bookChunkIds
      (ingestState embed st' b title author content m o) b
      = ecs.map fun e => e.chunk.chunk_id := by
    intro st'
    rw [hsteq st']
    exact bookChunkIds_upsert hbook
  refine ⟨by rw [hids, hids], ?_⟩
  rw [hids]
  have h1 : (ecs.map fun e => e.chunk.chunk_id)
      = (ecs.map fun e => e.chunk).map fun c => c.chunk_id := by
    simp
  rw [h1, embedAll_chunks hsucc]
  apply List.map_congr_left
  intro c hc
  exact (chunk_fields hc).2

/-- C3 witness: ingesting the two-character book "hi" twice. -/
theorem ingest_idempotent_chunk_ids_w :
    bookChunkIds
        (ingestState (fun _ => some [])
          (ingestState (fun _ => some []) ⟨[]⟩ "b" "t" "a" "hi" 4 1)
          "b" "t" "a" "hi" 4 1) "b"
      = bookChunkIds
          (ingestState (fun _ => some []) ⟨[]⟩ "b" "t" "a" "hi" 4 1) "b" ∧
    bookChunkIds (ingestState (fun _ => some []) ⟨[]⟩ "b" "t" "a" "hi" 4 1) "b"
      = (chunk "b" "hi" 4 1).map fun c => chunkId "b" c.start_offset c.end_offset :=
  ingest_idempotent_chunk_ids (fun _ => some []) ⟨[]⟩ "b" "t" "a" "hi" 4 1
    [⟨⟨"b#0:2", "b", "hi", 0, 2, 0⟩, []⟩] rfl

/-- C4: `search` returns its (chunk, similarity) pairs sorted descending
by similarity, ties broken by ascending `sequence_index`; being a pure
function of the index state and the query vector, its order is
deterministic. -/
theorem search_result_sorted (st : IndexState) (b : String) (qv : List Rat)
    (k : Nat) :
    List.Pairwise
      (fun p q : Chunk × Rat =>
        q.2 < p.2 ∨ (p.2 = q.2 ∧ p.1.sequence_index ≤ q.1.sequence_index))
      (search st b qv k) := by
  unfold search
  exact List.Pairwise.sublist (List.take_sublist _ _)
    (List.sorted_insertionSort searchLe _)

/-- A successful `runQuery` decomposes into a successful retrieval and a
successful answer step with the same call counts. -/
theorem runQuery_ok {embed : String → Option (List Rat)}
    {gen : String → Option GenOutput} {st : IndexState} {cfg : Config}
    {q : Query} {a : Answer} {sc gc : Nat}
    (h : runQuery embed gen st cfg q = .ok (a, sc, gc)) :
    ∃ ev, retrieve embed st cfg q = .ok (ev, sc) ∧
      answer gen q ev = .ok (a, gc) := by
  unfold runQuery at h
  split at h
  · cases h
  · rename_i ev sc' heq
    split at h
    · cases h
    · rename_i a' gc' heq2
      simp only [Except.ok.injEq, Prod.mk.injEq] at h
      obtain ⟨h1, h2, h3⟩ := h
      exact ⟨ev, by rw [heq, h2], by rw [heq2, h1, h3]⟩

/-- Every citation of a successful answer is produced from one of the
evidence entries it was given. -/
theorem answer_citations_from_evidence {gen : String → Option GenOutput}
    {q : Query} {ev : Evidence} {a : Answer} {gc : Nat}
    (h : answer gen q ev = .ok (a, gc)) :
    ∀ cit ∈ a.citations, ∃ e ∈ ev, cit = citationOf q e := by
  unfold answer at h
  split at h
  · simp only [Except.ok.injEq, Prod.mk.injEq] at h
    rw [← h.1]
    simp [refusalAnswer]
  · cases hg : gen (buildPrompt q ev) with
    | none => rw [hg] at h; cases h
    | some out =>
        rw [hg] at h
        simp only at h
        split at h
        · simp only [Except.ok.injEq, Prod.mk.injEq] at h
          rw [← h.1]
          simp [refusalAnswer]
        · simp only [Except.ok.injEq, Prod.mk.injEq] at h
          rw [← h.1]
          intro cit hcit
          simp only at hcit
          rcases List.mem_map.mp hcit with ⟨e, he, rfl⟩
          rcases List.mem_filterMap.mp he with ⟨i, _, hget⟩
          exact ⟨e, List.get?_mem hget, rfl⟩

/-- In `full_book` mode every evidence entry produced by a successful
retrieval wraps a chunk stored in the index for the requested book. -/
theorem retrieve_fullBook_evidence {embed : String → Option (List Rat)}
    {st : IndexState} {cfg : Config} {q : Query} {ev : Evidence} {sc : Nat}
    (hmode : q.mode = Mode.full_book)
    (h : retrieve embed st cfg q = .ok (ev, sc)) :
    ∀ e ∈ ev, ∃ ec ∈ st.entries,
      e.source = EvidenceSource.chunkSrc ec.chunk ∧
        ec.chunk.book_id = q.book_id := by
  unfold retrieve at h
  rw [hmode] at h
  cases hembed : embed q.text with
  | none => rw [hembed] at h; cases h
  | some v =>
      rw [hembed] at h
      simp only [Except.ok.injEq, Prod.mk.injEq] at h
      intro e he
      rw [← h.1] at he
      have he2 := mem_takeBudget he
      rcases List.mem_map.mp he2 with ⟨p, hp, rfl⟩
      have hp2 := List.mem_filter.mp hp
      rcases mem_search hp2.1 with ⟨ec, hec, hchunk, hbook⟩
      exact ⟨ec, hec, by rw [hchunk], hbook⟩

/-- C5: for every `full_book` query answered successfully, every citation
of the returned answer names a chunk stored in the index for the
requested `book_id` — no cross-book leakage. -/
theorem fullBook_citations_same_book
    (embed : String → Option (List Rat)) (gen : String → Option GenOutput)
    (st : IndexState) (cfg : Config) (q : Query) (a : Answer) (sc gc : Nat)
    (hmode : q.mode = Mode.full_book)
    (hok : runQuery embed gen st cfg q = .ok (a, sc, gc)) :
    ∀ cit ∈ a.citations, cit.book_id = q.book_id ∧
      ∃ ec ∈ st.entries, ec.chunk.chunk_id = cit.ref ∧
        ec.chunk.book_id = q.book_id := by
  obtain ⟨ev, hr, ha⟩ := runQuery_ok hok
  intro cit hcit
  obtain ⟨e, he, rfl⟩ := answer_citations_from_evidence ha cit hcit
  obtain ⟨ec, hec, hsrc, hbook⟩ := retrieve_fullBook_evidence hmode hr e he
  refine ⟨?_, ec, hec, ?_, hbook⟩
  · simp [citationOf, hsrc, hbook]
  · simp [citationOf, hsrc]

/-- C5 witness: a one-chunk index, a query for its book, and a generator
citing reference 0. -/
theorem fullBook_citations_same_book_w :
    (Citation.mk "b#0:2" "hi" "b").book_id = "b" ∧
      ∃ ec ∈ (IndexState.mk [⟨⟨"b#0:2", "b", "hi", 0, 2, 0⟩, []⟩]).entries,
        ec.chunk.chunk_id = (Citation.mk "b#0:2" "hi" "b").ref ∧
          ec.chunk.book_id = "b" :=
  fullBook_citations_same_book (fun _ => some []) (fun _ => some ⟨"ans", [0]⟩)
    ⟨[⟨⟨"b#0:2", "b", "hi", 0, 2, 0⟩, []⟩]⟩ ⟨5, 0, 100⟩
    ⟨"s", "q", Mode.full_book, "b", none⟩
    ⟨"ans", [⟨"b#0:2", "hi", "b"⟩], true, Mode.full_book⟩ 1 1 rfl rfl
    ⟨"b#0:2", "hi", "b"⟩ (by decide)

/-- C6: if embedding fails for any chunk of the batch, the whole
ingestion call fails with `embeddingUnavailable` and the searchable index
state is left exactly as it was — no partial book state. -/
theorem ingest_partial_failure_no_state
    (embed : String → Option (List Rat)) (st : IndexState)
    (b title author content : String) (m o : Nat)
    (h : ∃ c ∈ chunk b content m o, embed c.text = none) :
    ingest embed st b title author content m o
        = .error .embeddingUnavailable ∧
      ingestState embed st b title author content m o = st := by
  obtain ⟨c, hc, hnone⟩ := h
  have hfail := embedAll_none hc hnone
  constructor
  · simp [ingest, hfail]
  · simp [ingestState, ingest, hfail]

/-- C6 witness: an embedder that is down for every input. -/
theorem ingest_partial_failure_no_state_w :
    ingest (fun _ => none) ⟨[]⟩ "b" "t" "a" "hi" 4 1
        = .error .embeddingUnavailable ∧
      ingestState (fun _ => none) ⟨[]⟩ "b" "t" "a" "hi" 4 1 = ⟨[]⟩ :=
  ingest_partial_failure_no_state (fun _ => none) ⟨[]⟩ "b" "t" "a" "hi" 4 1
    (by decide)

/-- C7: on a capability outage the user sees the fixed
"temporarily unavailable" style client error message, which differs from
the grounded=false refusal text, and never a fabricated answer: the chat
page appends exactly `clientErrorText` on a non-ok or failed fetch, and
on an embedder outage the engine surfaces `embeddingUnavailable` instead
of an answer. -/
theorem capability_outage_distinct_message
    (st : ChatState) (now status : Nat) (statusText : String)
    (h : isBlank st.inputValue = false) :
    handleSendMessage st (.httpError status statusText) now
        = ({ messages := st.messages ++
              [⟨now, st.inputValue, "user"⟩, ⟨now + 1, clientErrorText, "ai"⟩]
             inputValue := ""
             isLoading := false }, 1) ∧
      handleSendMessage st .networkError now
        = ({ messages := st.messages ++
              [⟨now, st.inputValue, "user"⟩, ⟨now + 1, clientErrorText, "ai"⟩]
             inputValue := ""
             isLoading := false }, 1) ∧
      clientErrorText ≠ refusalText ∧
      ∀ (embed : String → Option (List Rat)) (gen : String → Option GenOutput)
        (st2 : IndexState) (cfg : Config) (q : Query),
        q.mode = Mode.full_book → embed q.text = none →
          runQuery embed gen st2 cfg q = .error .embeddingUnavailable := by
  refine ⟨?_, ?_, by decide, ?_⟩
  · simp [handleSendMessage, h]
  · simp [handleSendMessage, h]
  · intro embed gen st2 cfg q hmode hnone
    unfold runQuery retrieve
    rw [hmode, hnone]

/-- C7 witness: a concrete page state and an HTTP 500 outage. -/
theorem capability_outage_distinct_message_w :
    handleSendMessage ⟨[], "hi", false⟩ (.httpError 500 "Internal") 7
        = ({ messages := [⟨7, "hi", "user"⟩, ⟨8, clientErrorText, "ai"⟩]
             inputValue := ""
             isLoading := false }, 1) ∧
      handleSendMessage ⟨[], "hi", false⟩ .networkError 7
        = ({ messages := [⟨7, "hi", "user"⟩, ⟨8, clientErrorText, "ai"⟩]
             inputValue := ""
             isLoading := false }, 1) ∧
      clientErrorText ≠ refusalText ∧
      ∀ (embed : String → Option (List Rat)) (gen : String → Option GenOutput)
        (st2 : IndexState) (cfg : Config) (q : Query),
        q.mode = Mode.full_book → embed q.text = none →
          runQuery embed gen st2 cfg q = .error .embeddingUnavailable :=
  capability_outage_distinct_message ⟨[], "hi", false⟩ 7 500 "Internal"
    (by decide)

/-- C8: every request the chat page constructs carries mode `full_book`,
omits `selected_text` and passes request validation (so mode and
selected_text presence are consistent), and any request violating the
consistency invariant is rejected as a validation error before the engine
is invoked (engine-call count 0). -/
theorem chat_request_valid_and_validation_gate (input : String) :
    validateRequest (requestOf input) = true ∧
      (requestOf input).mode = "full_book" ∧
      (requestOf input).selected_text = none ∧
      ∀ (engine : ChatRequest → Except EngineError Answer) (r : ChatRequest),
        validateRequest r = false →
          apiChat engine r = (.error .validation, 0) := by
  refine ⟨rfl, rfl, rfl, ?_⟩
  intro engine r h
  simp [apiChat, h]

/-- C8 witness: the page request for input "x", and an inconsistent
request (mode `full_book` with `selected_text` present) stopped at the
validation gate. -/
theorem chat_request_valid_and_validation_gate_w :
    validateRequest (requestOf "x") = true ∧
      apiChat (fun _ => .error .generationUnavailable)
          ⟨"s", "q", "full_book", "b", some "sel"⟩
        = (.error .validation, 0) :=
  ⟨(chat_request_valid_and_validation_gate "x").1,
    (chat_request_valid_and_validation_gate "x").2.2.2
      (fun _ => .error .generationUnavailable)
      ⟨"s", "q", "full_book", "b", some "sel"⟩ (by decide)⟩

/-- C9: for blank input — empty or whitespace-only, exactly when the
JavaScript guard `!inputValue.trim()` fires — `handleSendMessage` is a
no-op: the component state is returned unchanged and no network request
is issued. -/
theorem handleSendMessage_blank_noop (st : ChatState) (fr : FetchResult)
    (now : Nat) (h : isBlank st.inputValue = true) :
    handleSendMessage st fr now = (st, 0) := by
  simp [handleSendMessage, h]

/-- C9 witness: whitespace-only input is a no-op for every fetch
outcome shape. -/
theorem handleSendMessage_blank_noop_w :
    handleSendMessage ⟨[⟨1, "welcome", "ai"⟩], "  ", false⟩ .networkError 7
      = (⟨[⟨1, "welcome", "ai"⟩], "  ", false⟩, 0) :=
  handleSendMessage_blank_noop ⟨[⟨1, "welcome", "ai"⟩], "  ", false⟩
    .networkError 7 (by decide)

/-- C10: on a successful response the appended AI message text is the
response's `answer` when that is present and non-empty and the fixed
fallback otherwise, and the `citations` and `grounded` fields of the
response have no effect on the resulting state. -/
theorem success_response_display (st : ChatState) (data : ChatResponse)
    (now : Nat) (h : isBlank st.inputValue = false) :
    handleSendMessage st (.ok data) now
        = ({ messages := st.messages ++
              [⟨now, st.inputValue, "user"⟩, ⟨now + 1, aiText data, "ai"⟩]
             inputValue := ""
             isLoading := false }, 1) ∧
      (∀ a, data.answer = some a → a ≠ "" → aiText data = a) ∧
      (data.answer = none ∨ data.answer = some "" →
        aiText data = fallbackText) ∧
      ∀ (cits : List Citation) (g : Bool),
        handleSendMessage st (.ok ⟨data.answer, cits, g⟩) now
          = handleSendMessage st (.ok data) now := by
  refine ⟨by simp [handleSendMessage, h], ?_, ?_, ?_⟩
  · intro a ha hne
    simp [aiText, ha, hne]
  · intro ha
    rcases ha with ha | ha <;> simp [aiText, ha]
  · intro cits g
    simp [handleSendMessage, h, aiText]

/-- C10 witness: a response whose answer is non-empty, displayed
verbatim regardless of citations and grounded flag. -/
theorem success_response_display_w :
    handleSendMessage ⟨[], "hi", false⟩ (.ok ⟨some "The sky is blue.", [], true⟩) 7
        = ({ messages := [⟨7, "hi", "user"⟩,
              ⟨8, aiText ⟨some "The sky is blue.", [], true⟩, "ai"⟩]
             inputValue := ""
             isLoading := false }, 1) ∧
      (∀ a, (some "The sky is blue." : Option String) = some a → a ≠ "" →
        aiText ⟨some "The sky is blue.", [], true⟩ = a) ∧
      ((some "The sky is blue." : Option String) = none ∨
          (some "The sky is blue." : Option String) = some "" →
        aiText ⟨some "The sky is blue.", [], true⟩ = fallbackText) ∧
      ∀ (cits : List Citation) (g : Bool),
        handleSendMessage ⟨[], "hi", false⟩ (.ok ⟨some "The sky is blue.", cits, g⟩) 7
          = handleSendMessage ⟨[], "hi", false⟩ (.ok ⟨some "The sky is blue.", [], true⟩) 7 :=
  success_response_display ⟨[], "hi", false⟩ ⟨some "The sky is blue.", [], true⟩ 7
    (by decide)
